import Mathlib

/-!
Verification development for the aiwf market-research pipeline.

The repository contains two near-duplicate Mastra workflow variants:
`src/mastra/workflows/commerce-influencer.ts` (the "CI" variant) and the
generic market-research workflow (the "MR" variant).  Both run a fixed
three-stage pipeline (collect cases → enrich with metrics → summarize and
notify) over the same Zod data model.  This file shallowly embeds the data
model, the Zod validation predicates, the dual-mode structured-generation
adapter, the three stage bodies and the pipeline composition, and proves
the stated properties about them.

External boundaries (the `ai` SDK's `generateObject`, `JSON.parse`, Zod's
error-message text, the Mastra engine's enforcement of step input/output
schemas, and the Slack webhook client) are modelled at their contract:
model responses, parse outcomes and engine error messages enter as data,
and outbound effects (webhook sends, console warnings) are returned
explicitly.
-/

namespace Aiwf

/-- `languageSchema = z.enum(['ja', 'en'])`. -/
inductive Language where
  | ja
  | en
deriving DecidableEq, Repr

/-- `influencerSchema`: name required, the rest optional strings. -/
structure Influencer where
  name : String
  platform : Option String
  handle : Option String
  followers : Option String
  positioning : Option String
deriving DecidableEq, Repr

/-- `baseCaseSchema`: one market example collected by Stage 1. -/
structure BaseCase where
  brand : String
  campaignName : String
  geography : String
  timeframe : Option String
  summary : String
  productFocus : Option String
  offerType : Option String
  influencers : List Influencer
  sources : Option (List String)
deriving DecidableEq, Repr

/-- `metricSchema`: one KPI observation attached by Stage 2.  (The MR
variant additionally allows `currency` to be `null`; both `null` and
`undefined` are represented here by `none`, which is behaviour-equivalent
everywhere the field is consumed.) -/
structure Metric where
  metric : String
  value : String
  currency : Option String
  timeframe : Option String
  note : Option String
deriving DecidableEq, Repr

/-- `enrichedCaseSchema = baseCaseSchema.extend(\x7b metrics \x7d)`. -/
structure EnrichedCase where
  brand : String
  campaignName : String
  geography : String
  timeframe : Option String
  summary : String
  productFocus : Option String
  offerType : Option String
  influencers : List Influencer
  sources : Option (List String)
  metrics : List Metric
deriving DecidableEq, Repr

/-- The base-field projection of an enriched case (drop `metrics`). -/
def EnrichedCase.toBase (c : EnrichedCase) : BaseCase :=
  ⟨c.brand, c.campaignName, c.geography, c.timeframe, c.summary,
    c.productFocus, c.offerType, c.influencers, c.sources⟩

/-- The value shape of `caseListSchema`. -/
structure CaseList where
  cases : List BaseCase
deriving DecidableEq, Repr

/-- The value shape of `enrichedCaseListSchema`. -/
structure EnrichedCaseList where
  cases : List EnrichedCase
deriving DecidableEq, Repr

/-- Zod constraint check for `baseCaseSchema`: `influencers` has
`.min(1)` and `sources`, when present, has `.min(1)`. -/
def validBaseCase (c : BaseCase) : Bool :=
  decide (1 ≤ c.influencers.length) &&
    (match c.sources with
      | none => true
      | some s => decide (1 ≤ s.length))

/-- Zod constraint check for `enrichedCaseSchema`: base constraints plus
`metrics.min(1)`. -/
def validEnrichedCase (c : EnrichedCase) : Bool :=
  validBaseCase c.toBase && decide (1 ≤ c.metrics.length)

/-- `caseListSchema`: `cases: z.array(baseCaseSchema).max(6)`. -/
def caseListValid (r : CaseList) : Bool :=
  decide (r.cases.length ≤ 6) && r.cases.all validBaseCase

/-- `enrichedCaseListSchema`: `cases: z.array(enrichedCaseSchema)` with no
length bound. -/
def enrichedCaseListValid (r : EnrichedCaseList) : Bool :=
  r.cases.all validEnrichedCase

/-! ### String helpers mirroring the JavaScript built-ins used by the source -/

/-- Does `pat` occur as a contiguous sublist of `l`?  Mirrors
`String.prototype.includes` at the character-list level. -/
def listContainsPat [BEq α] (pat : List α) : List α → Bool
  | [] => pat.isEmpty
  | a :: rest => pat.isPrefixOf (a :: rest) || listContainsPat pat rest

/-- `s.includes(pat)` of JavaScript. -/
def strContains (s pat : String) : Bool :=
  listContainsPat pat.data s.data

/-- `s.startsWith(pat)` of JavaScript. -/
def strStartsWith (s pat : String) : Bool :=
  pat.data.isPrefixOf s.data

/-- `Array.prototype.join(sep)`: empty list gives `""`, otherwise the
elements interleaved with `sep`. -/
def joinSep (sep : String) : List String → String
  | [] => ""
  | [x] => x
  | x :: y :: xs => x ++ sep ++ joinSep sep (y :: xs)

theorem listContainsPat_iff [DecidableEq α] (pat l : List α) :
    listContainsPat pat l = true ↔ pat <:+: l := by
  induction l with
  | nil =>
    simp [listContainsPat, List.isEmpty_iff, List.infix_nil]
  | cons a rest ih =>
    simp [listContainsPat, List.infix_cons_iff, ih, List.isPrefixOf_iff_prefix]

theorem strContains_iff (s pat : String) :
    strContains s pat = true ↔ pat.data <:+: s.data :=
  listContainsPat_iff pat.data s.data

theorem strStartsWith_iff (s pat : String) :
    strStartsWith s pat = true ↔ pat.data <+: s.data :=
  List.isPrefixOf_iff_prefix

/-- Appending to the right preserves `strStartsWith`. -/
theorem strStartsWith_append (s t : String) :
    strStartsWith (s ++ t) s = true := by
  rw [strStartsWith_iff, String.data_append]
  exact List.prefix_append s.data t.data

/-- A substring of `t` is a substring of `s ++ t`. -/
theorem strContains_append_right (s t pat : String)
    (h : strContains t pat = true) : strContains (s ++ t) pat = true := by
  rw [strContains_iff, String.data_append]
  rcases (strContains_iff t pat).mp h with ⟨u, v, huv⟩
  exact ⟨s.data ++ u, v, by rw [← huv]; simp⟩

/-- Every element of the joined list is a substring of the join. -/
theorem strContains_joinSep (sep x : String) (parts : List String)
    (hx : x ∈ parts) : strContains (joinSep sep parts) x = true := by
  induction parts with
  | nil => cases hx
  | cons a rest ih =>
    cases rest with
    | nil =>
      rcases List.mem_cons.mp hx with rfl | h
      · rw [strContains_iff]
        exact List.infix_refl _
      · cases h
    | cons b xs =>
      rcases List.mem_cons.mp hx with rfl | h
      · rw [strContains_iff]
        have hj : joinSep sep (x :: b :: xs) = (x ++ sep) ++ joinSep sep (b :: xs) := rfl
        rw [hj, String.data_append, String.data_append]
        exact ⟨[], sep.data ++ (joinSep sep (b :: xs)).data, by simp⟩
      · have htail := ih h
        have hj : joinSep sep (a :: b :: xs) = (a ++ sep) ++ joinSep sep (b :: xs) := rfl
        rw [hj]
        exact strContains_append_right _ _ _ htail

/-! ### Stage 3: summarize-and-notify (identical in both workflow variants) -/

/-- `language === 'ja' ? '主要KPI' : 'Key KPIs'`. -/
def bulletLabel (lang : Language) : String :=
  if lang = Language.ja then "主要KPI" else "Key KPIs"

/-- One summary line per metric.  The JavaScript conditional
`metric.currency ? ... : ''` is truthiness-based: an absent field and a
present-but-empty string both render nothing. -/
def renderMetricLine (m : Metric) : String :=
  "- " ++ m.metric ++ ": " ++ m.value
    ++ (match m.currency with
          | some c => if c = "" then "" else " " ++ c
          | none => "")
    ++ (match m.timeframe with
          | some t => if t = "" then "" else " (" ++ t ++ ")"
          | none => "")
    ++ (match m.note with
          | some n => if n = "" then "" else "｜" ++ n
          | none => "")

/-- Truthiness of `c.sources?.length`: defined and non-zero. -/
def EnrichedCase.hasSources (c : EnrichedCase) : Bool :=
  match c.sources with
  | some s => !s.isEmpty
  | none => false

/-- The optional trailing sources fragment of one summary entry. -/
def sourcesLine (lang : Language) (includeSources : Bool) (c : EnrichedCase) : String :=
  if includeSources && c.hasSources then
    "\n" ++ (if lang = Language.ja then "参考" else "Sources") ++ ": "
      ++ joinSep ", " (c.sources.getD [])
  else ""

/-- One numbered summary entry for the case at 0-based position `idx`. -/
def renderCaseText (lang : Language) (includeSources : Bool) (idx : Nat) (c : EnrichedCase) : String :=
  toString (idx + 1) ++ ". " ++ c.brand ++ " / " ++ c.campaignName ++ "\n"
    ++ c.summary ++ "\n" ++ bulletLabel lang ++ ":\n"
    ++ joinSep "\n" (c.metrics.map renderMetricLine)
    ++ sourcesLine lang includeSources c

/-- `cases.map((c, idx) => ...)` — the list of summary entries, carrying
the running 0-based index. -/
def summaryParts (lang : Language) (includeSources : Bool) : Nat → List EnrichedCase → List String
  | _, [] => []
  | i, c :: rest =>
    renderCaseText lang includeSources i c :: summaryParts lang includeSources (i + 1) rest

/-- The full summary string: entries joined by a blank line. -/
def summaryOf (lang : Language) (includeSources : Bool) (cases : List EnrichedCase) : String :=
  joinSep "\n\n" (summaryParts lang includeSources 0 cases)

/-- One Slack Block Kit block: a `header` (plain_text) or `section`
(mrkdwn) block, each carrying its text. -/
inductive Block where
  | header (text : String)
  | section (text : String)
deriving DecidableEq, Repr

/-- Header title literal in `commerce-influencer.ts`. -/
def headerTitleCI (lang : Language) : String :=
  if lang = Language.ja then "コマース x インフルエンサー他社事例" else "Commerce x Influencer Scan"

/-- Header title literal in the market-research variant. -/
def headerTitleMR (lang : Language) : String :=
  if lang = Language.ja then "コマース x インフルエンサー他社事例" else "Commerce x Influencer Scan"

/-- The mrkdwn body of one section block. -/
def sectionText (lang : Language) (idx : Nat) (c : EnrichedCase) : String :=
  "*" ++ toString (idx + 1) ++ ". " ++ c.brand ++ " — " ++ c.campaignName ++ "*\n"
    ++ c.summary ++ "\n" ++ bulletLabel lang ++ ": "
    ++ joinSep " / " (c.metrics.map (fun m => m.metric ++ ": " ++ m.value))

/-- `cases.map((c, idx) => section block)` with the running index. -/
def sectionBlocks (lang : Language) : Nat → List EnrichedCase → List Block
  | _, [] => []
  | i, c :: rest => Block.section (sectionText lang i c) :: sectionBlocks lang (i + 1) rest

/-- `[header, ...sections].slice(0, 50)` — the chat payload's block list.
Both variants use the same header literal; `headerTitleCI` is the one
this shared definition references. -/
def summarizeBlocks (lang : Language) (cases : List EnrichedCase) : List Block :=
  (Block.header (headerTitleCI lang) :: sectionBlocks lang 0 cases).take 50

/-- The webhook send payload: plain-text fallback plus block list. -/
structure SlackPayload where
  text : String
  blocks : List Block
deriving DecidableEq, Repr

/-- Stage 3 input (= Stage 2's validated output shape). -/
structure Stage3Input where
  cases : List EnrichedCase
  metricFocus : List String
  language : Language
  includeSources : Bool
deriving DecidableEq, Repr

/-- Stage 3 / pipeline output. -/
structure Stage3Output where
  summary : String
  sentToSlack : Bool
  cases : List EnrichedCase
deriving DecidableEq, Repr

/-- Outbound effects of one Stage 3 execution: webhook sends and console
warnings, in order. -/
structure Stage3Effects where
  sends : List SlackPayload
  warnings : List String
deriving DecidableEq, Repr

/-- The `console.warn` message emitted when no webhook is configured. -/
def slackWarnMsg : String :=
  "SLACK_WEBHOOK_URL が設定されていないため、Slack 送信をスキップしました。"

/-- The body of `summarizeAndNotifyStep.execute`, with the process-wide
`slackWebhook` nullability passed in as `webhookConfigured` and network
effects returned as data. -/
def runStage3 (webhookConfigured : Bool) (input : Stage3Input) : Stage3Output × Stage3Effects :=
  let summary := summaryOf input.language input.includeSources input.cases
  if webhookConfigured then
    let blocks := summarizeBlocks input.language input.cases
    (⟨summary, true, input.cases⟩, ⟨[⟨summary, blocks⟩], []⟩)
  else
    (⟨summary, false, input.cases⟩, ⟨[], [slackWarnMsg]⟩)

/-! ### Structured Generation Adapter -/

/-- `const isSearchModel = MODEL_NAME.includes('search')` — the
commerce-influencer variant's mode predicate, as a function of the model
name. -/
def isSearchModel (name : String) : Bool :=
  strContains name "search"

/-- `const isNonStructuredModel = MODEL_NAME.includes('search') ||
MODEL_NAME.startsWith('gpt-5')` — the market-research variant's mode
predicate. -/
def isNonStructuredModel (name : String) : Bool :=
  strContains name "search" || strStartsWith name "gpt-5"

/-- The adapter's failure values.  The source throws plain `Error`s; the
spec's taxonomy names schema/parse failures `ValidationError`. -/
inductive AdapterError where
  | validationError (message : String)
deriving DecidableEq, Repr

/-- Suffix appended to the system prompt in text mode. -/
def jsonOnlySystemSuffix : String :=
  "\n\nIMPORTANT: You MUST respond with valid JSON only. Do not include any explanatory text, only valid JSON."

/-- Suffix appended to the user prompt in text mode. -/
def jsonOnlyPromptSuffix : String :=
  "\n\nRespond with valid JSON only, no additional text."

/-- The system prompt actually handed to `generateText` in text mode. -/
def textModeSystem (sys : String) : String :=
  sys ++ jsonOnlySystemSuffix

/-- The user prompt actually handed to `generateText` in text mode. -/
def textModePrompt (prompt : String) : String :=
  prompt ++ jsonOnlyPromptSuffix

/-- Outcome of running `JSON.parse` then the Zod shape match on the raw
text returned by the model.  Both steps live in external libraries
(`JSON.parse` and `zod`); their error-message text is data here.
`parsed v zodMessage` means the text parsed into the schema's value shape
`v`; `zodMessage` is the message Zod would raise should `v` fail the
schema's constraint checks. -/
inductive TextOutcome (α : Type) where
  | parseFailed (engineMessage : String)
  | parsed (value : α) (zodMessage : String)
deriving DecidableEq, Repr

/-- A text-mode model response: the raw text plus its parse outcome. -/
structure TextResponse (α : Type) where
  text : String
  outcome : TextOutcome α
deriving DecidableEq, Repr

/-- Error-message prefix of the commerce-influencer variant's catch block. -/
def ciParseFailurePrefix : String :=
  "Failed to parse search model response as valid JSON: "

/-- Error-message prefix of the market-research variant's catch block. -/
def mrParseFailurePrefix : String :=
  "Failed to parse non-structured model response as valid JSON: "

/-- Text-mode branch of `generateStructuredObject` in
`commerce-influencer.ts`: parse the text as JSON, validate against the
schema, and rethrow any failure with a fixed prefix plus the caught
error's message.  `check` is the schema's constraint predicate. -/
def textModeRunCI {α : Type} (check : α → Bool) (resp : TextResponse α) :
    Except AdapterError α :=
  match resp.outcome with
  | .parseFailed m => .error (.validationError (ciParseFailurePrefix ++ m))
  | .parsed v zm =>
    if check v then .ok v
    else .error (.validationError (ciParseFailurePrefix ++ zm))

/-- Console lines the market-research variant prints in its catch block
before rethrowing (the second line is the raw response text). -/
def mrCatchLogs {α : Type} (resp : TextResponse α) : List String :=
  ["❌ Model response that failed to parse:", resp.text, "\n❌ Parse error:"]

/-- Text-mode branch of the market-research variant: same control flow as
the commerce variant plus `console.error` diagnostics, returned here as a
log list. -/
def textModeRunMR {α : Type} (check : α → Bool) (resp : TextResponse α) :
    Except AdapterError α × List String :=
  match resp.outcome with
  | .parseFailed m =>
    (.error (.validationError (mrParseFailurePrefix ++ m)), mrCatchLogs resp)
  | .parsed v zm =>
    if check v then (.ok v, [])
    else (.error (.validationError (mrParseFailurePrefix ++ zm)), mrCatchLogs resp)

/-- Modelled from the spec: the external `ai` SDK's `generateObject`,
which both variants call in structured mode, is not part of this
repository.  Per the spec it returns the provider's value after checking
it against the given schema locally, failing with a `ValidationError`
when the value does not satisfy the schema. -/
def generateObjectSDK {α : Type} (check : α → Bool) (value : α) :
    Except AdapterError α :=
  if check value then .ok value
  else .error (.validationError "response does not satisfy the schema")

/-- `generateStructuredObject` of `commerce-influencer.ts`: dispatch on
`isSearchModel`.  `textResp` is the raw-text response a text-mode call
would receive; `structuredValue` the value a structured-mode call would
receive. -/
def generateStructuredObjectCI {α : Type} (modelName : String) (check : α → Bool)
    (textResp : TextResponse α) (structuredValue : α) : Except AdapterError α :=
  if isSearchModel modelName then textModeRunCI check textResp
  else generateObjectSDK check structuredValue

/-- `generateStructuredObject` of the market-research variant: dispatch on
`isNonStructuredModel`; also returns the console log lines. -/
def generateStructuredObjectMR {α : Type} (modelName : String) (check : α → Bool)
    (textResp : TextResponse α) (structuredValue : α) :
    Except AdapterError α × List String :=
  if isNonStructuredModel modelName then textModeRunMR check textResp
  else (generateObjectSDK check structuredValue, [])

/-! ### Pipeline input parsing (the two variants' `inputSchema`s) -/

/-- A raw workflow invocation input: each field either explicitly given
or absent (to be defaulted by the Zod schema). -/
structure RawInput where
  focusKeyword : Option String
  geography : Option String
  minExamples : Option Int
  language : Option Language
  metricFocus : Option (List String)
  includeSources : Option Bool
deriving DecidableEq, Repr

/-- A successfully validated pipeline input. -/
structure PipelineInput where
  focusKeyword : String
  geography : String
  minExamples : Int
  language : Language
  metricFocus : List String
  includeSources : Bool
deriving DecidableEq, Repr

/-- `collectCompetitorCasesStep.inputSchema` (commerce variant):
`focusKeyword` merely defaults — there is no non-empty check. -/
def parseInputCI (raw : RawInput) : Option PipelineInput :=
  let fk := raw.focusKeyword.getD "コマース x インフルエンサー"
  let geo := raw.geography.getD "Japan"
  let minE := raw.minExamples.getD 3
  let lang := raw.language.getD Language.ja
  let mf := raw.metricFocus.getD ["売上", "CVR", "ROI"]
  let inc := raw.includeSources.getD true
  if 1 ≤ minE ∧ minE ≤ 6 ∧ 1 ≤ mf.length then
    some ⟨fk, geo, minE, lang, mf, inc⟩
  else none

/-- `collectCasesStep.inputSchema` (market-research variant):
`focusKeyword` is required with `.min(1, 'focusKeyword is required')`. -/
def parseInputMR (raw : RawInput) : Option PipelineInput :=
  match raw.focusKeyword with
  | none => none
  | some fk =>
    let geo := raw.geography.getD "Japan"
    let minE := raw.minExamples.getD 3
    let lang := raw.language.getD Language.ja
    let mf := raw.metricFocus.getD ["売上", "GMV", "CVR"]
    let inc := raw.includeSources.getD true
    if 1 ≤ fk.length ∧ 1 ≤ minE ∧ minE ≤ 6 ∧ 1 ≤ mf.length then
      some ⟨fk, geo, minE, lang, mf, inc⟩
    else none

/-! ### Stages 1 and 2 -/

/-- Stage failures.  Schema failures at a stage boundary surface as
validation errors; the message here identifies the failing boundary. -/
inductive StageError where
  | validationError (message : String)
deriving DecidableEq, Repr

/-- Stage 1's output envelope (also Stage 2's input shape). -/
structure Stage1Output where
  cases : List BaseCase
  metricFocus : List String
  language : Language
  includeSources : Bool
deriving DecidableEq, Repr

/-- `collectCompetitorCasesStep.outputSchema` (identical in both
variants): `cases.min(1)`, each case valid, `metricFocus.min(1)`. -/
def stage1OutputValid (o : Stage1Output) : Bool :=
  decide (1 ≤ o.cases.length) && o.cases.all validBaseCase
    && decide (1 ≤ o.metricFocus.length)

/-- Stage 2's output envelope (also Stage 3's input shape). -/
structure Stage2Output where
  cases : List EnrichedCase
  metricFocus : List String
  language : Language
  includeSources : Bool
deriving DecidableEq, Repr

/-- `enrichCasesWithMetricsStep.outputSchema`: `cases.min(1)` of valid
enriched cases, `metricFocus.min(1)`. -/
def stage2OutputValid (o : Stage2Output) : Bool :=
  decide (1 ≤ o.cases.length) && o.cases.all validEnrichedCase
    && decide (1 ≤ o.metricFocus.length)

/-- The output envelope Stage 1's `execute` returns: the model's cases
plus the carry-through fields, forwarded unchanged. -/
def mkStage1Output (input : PipelineInput) (resp : CaseList) : Stage1Output :=
  ⟨resp.cases, input.metricFocus, input.language, input.includeSources⟩

/-- `collectCompetitorCasesStep.execute` given a validated input and the
(typed) model response: the adapter validates the response against
`caseListSchema`; the Mastra engine then validates the step output
against `outputSchema` before the next stage may run (the engine's
enforcement is modelled from the spec — the engine itself is an external
framework). -/
def runStage1 (input : PipelineInput) (resp : CaseList) :
    Except StageError Stage1Output :=
  if caseListValid resp then
    if stage1OutputValid (mkStage1Output input resp) then .ok (mkStage1Output input resp)
    else .error (.validationError "stage-1 output failed schema validation")
  else .error (.validationError "model response failed case-list schema validation")

/-- The output envelope Stage 2's `execute` returns: the model's enriched
cases plus the carry-through fields, forwarded unchanged. -/
def mkStage2Output (input : Stage1Output) (resp : EnrichedCaseList) : Stage2Output :=
  ⟨resp.cases, input.metricFocus, input.language, input.includeSources⟩

/-- `enrichCasesWithMetricsStep.execute`: the engine validates the step
input (same shape as Stage 1's output schema), the adapter validates the
model response against `enrichedCaseListSchema`, the engine validates the
step output.  The output's `cases` are taken verbatim from the model
response; nothing compares them with the input cases. -/
def runStage2 (input : Stage1Output) (resp : EnrichedCaseList) :
    Except StageError Stage2Output :=
  if stage1OutputValid input then
    if enrichedCaseListValid resp then
      if stage2OutputValid (mkStage2Output input resp) then .ok (mkStage2Output input resp)
      else .error (.validationError "stage-2 output failed schema validation")
    else .error (.validationError "model response failed enriched-case-list schema validation")
  else .error (.validationError "stage-2 input failed schema validation")

/-! ### Pipeline composition -/

deriving instance DecidableEq for Except

/-- Observable trace of one pipeline run: the result, which model calls
were issued, whether Stage 3 executed, and Stage 3's outbound effects. -/
structure PipelineTrace where
  result : Except StageError Stage3Output
  stage1ModelCalled : Bool
  stage2ModelCalled : Bool
  stage3Reached : Bool
  sends : List SlackPayload
  warnings : List String
deriving DecidableEq, Repr

/-- The pipeline after input validation succeeded: Stage 1's model call
is issued, then Stage 2 and Stage 3 run in sequence, any stage error
stopping the run. -/
def pipelineAfterParse (webhookConfigured : Bool) (input : PipelineInput)
    (r1 : CaseList) (r2 : EnrichedCaseList) : PipelineTrace :=
  match runStage1 input r1 with
  | .error e => ⟨.error e, true, false, false, [], []⟩
  | .ok out1 =>
    match runStage2 out1 r2 with
    | .error e => ⟨.error e, true, true, false, [], []⟩
    | .ok out2 =>
      let step3 := runStage3 webhookConfigured
        ⟨out2.cases, out2.metricFocus, out2.language, out2.includeSources⟩
      ⟨.ok step3.1, true, true, true, step3.2.sends, step3.2.warnings⟩

/-- The three-stage pipeline over a given input parser (the only point
where the two workflow variants' pipelines differ for the properties
below).  `r1`/`r2` are the typed model responses of the two LLM calls;
a stage's model call is issued only once its input validation passed. -/
def runPipelineWith (parse : RawInput → Option PipelineInput)
    (webhookConfigured : Bool) (raw : RawInput) (r1 : CaseList)
    (r2 : EnrichedCaseList) : PipelineTrace :=
  match parse raw with
  | none =>
    ⟨.error (.validationError "workflow input failed schema validation"),
      false, false, false, [], []⟩
  | some input => pipelineAfterParse webhookConfigured input r1 r2

/-- The commerce-influencer workflow. -/
def runPipelineCI (webhookConfigured : Bool) (raw : RawInput) (r1 : CaseList)
    (r2 : EnrichedCaseList) : PipelineTrace :=
  runPipelineWith parseInputCI webhookConfigured raw r1 r2

/-- The market-research workflow. -/
def runPipelineMR (webhookConfigured : Bool) (raw : RawInput) (r1 : CaseList)
    (r2 : EnrichedCaseList) : PipelineTrace :=
  runPipelineWith parseInputMR webhookConfigured raw r1 r2

/-! ### Helper lemmas -/

theorem sectionBlocks_take (lang : Language) :
    ∀ (l : List EnrichedCase) (n i : Nat),
      sectionBlocks lang i (l.take n) = (sectionBlocks lang i l).take n := by
  intro l
  induction l with
  | nil => intro n i; simp [sectionBlocks]
  | cons c rest ih =>
    intro n i
    cases n with
    | zero => simp [sectionBlocks]
    | succ m => simp [sectionBlocks, List.take_succ_cons, ih]

theorem renderCase_mem_summaryParts (lang : Language) (inc : Bool) :
    ∀ (l : List EnrichedCase) (j i : Nat) (h : i < l.length),
      renderCaseText lang inc (j + i) (l.get ⟨i, h⟩) ∈ summaryParts lang inc j l := by
  intro l
  induction l with
  | nil => intro j i h; exact absurd h (Nat.not_lt_zero i)
  | cons c rest ih =>
    intro j i h
    cases i with
    | zero =>
      simp only [Nat.add_zero, List.get]
      exact List.mem_cons_self _ _
    | succ k =>
      have hk : k < rest.length := Nat.lt_of_succ_lt_succ h
      have hmem := ih (j + 1) k hk
      have harith : j + (k + 1) = (j + 1) + k := by omega
      simp only [List.get, harith, summaryParts]
      exact List.mem_cons_of_mem _ hmem

/-- The chat payload is the header followed by sections for the first 49
cases only. -/
theorem summarizeBlocks_eq (lang : Language) (cases : List EnrichedCase) :
    summarizeBlocks lang cases =
      Block.header (headerTitleCI lang) :: sectionBlocks lang 0 (cases.take 49) := by
  unfold summarizeBlocks
  rw [List.take_succ_cons, sectionBlocks_take]

/-! ### Claim theorems -/

/-- C9: with no webhook configured, Stage 3 performs no network send,
emits exactly the local warning, returns `sentToSlack = false`, and still
returns the fully rendered summary and the complete input case list. -/
theorem stage3_no_webhook (input : Stage3Input) :
    runStage3 false input =
      (⟨summaryOf input.language input.includeSources input.cases, false, input.cases⟩,
        ⟨[], [slackWarnMsg]⟩) := rfl

/-- C10: the chat payload's header title is a constant of the language
alone — 'コマース x インフルエンサー他社事例' for ja and
'Commerce x Influencer Scan' for en — the literal is identical in both
workflow variants, and the payload built by the shared summarize step
always begins with that header block, whatever the cases (and hence
whatever research topic produced them). -/
theorem header_title_constant (lang : Language) (cases : List EnrichedCase) :
    headerTitleCI lang = headerTitleMR lang ∧
    headerTitleCI Language.ja = "コマース x インフルエンサー他社事例" ∧
    headerTitleCI Language.en = "Commerce x Influencer Scan" ∧
    (summarizeBlocks lang cases).head? = some (Block.header (headerTitleCI lang)) := by
  refine ⟨by cases lang <;> rfl, rfl, rfl, ?_⟩
  rw [summarizeBlocks_eq]
  rfl

/-- C2: with a webhook configured, Stage 3 sends exactly one payload
whose block list has at most 50 entries — the header plus one section per
case for the first 49 cases in order, cases beyond the 49th being absent —
while every case still appears in the returned summary string and the
returned case list is the full input list. -/
theorem stage3_payload_truncation (input : Stage3Input) :
    (runStage3 true input).2.sends =
      [⟨(runStage3 true input).1.summary, summarizeBlocks input.language input.cases⟩] ∧
    (summarizeBlocks input.language input.cases).length ≤ 50 ∧
    summarizeBlocks input.language input.cases =
      Block.header (headerTitleCI input.language)
        :: sectionBlocks input.language 0 (input.cases.take 49) ∧
    (∀ (i : Nat) (h : i < input.cases.length),
      strContains (runStage3 true input).1.summary
        (renderCaseText input.language input.includeSources i (input.cases.get ⟨i, h⟩)) = true) ∧
    (runStage3 true input).1.cases = input.cases := by
  refine ⟨rfl, List.length_take_le _ _, summarizeBlocks_eq _ _, ?_, rfl⟩
  intro i h
  have hmem := renderCase_mem_summaryParts input.language input.includeSources
    input.cases 0 i h
  rw [Nat.zero_add] at hmem
  exact strContains_joinSep _ _ _ hmem

/-- A small concrete enriched case used by witnesses. -/
def sampleEnrichedCase : EnrichedCase :=
  ⟨"BrandA", "Camp", "Japan", none, "Summary", none, none,
    [⟨"Aoi", none, none, none, none⟩], none, [⟨"GMV", "10", none, none, none⟩]⟩

/-- A small concrete Stage 3 input used by witnesses. -/
def sampleStage3Input : Stage3Input :=
  ⟨[sampleEnrichedCase], ["売上"], Language.ja, true⟩

/-- C2 witness: the truncation theorem instantiated at a concrete input,
with its index bound discharged at `i = 0`. -/
theorem stage3_payload_truncation_witness :
    (summarizeBlocks sampleStage3Input.language sampleStage3Input.cases).length ≤ 50 ∧
    strContains (runStage3 true sampleStage3Input).1.summary
      (renderCaseText sampleStage3Input.language sampleStage3Input.includeSources 0
        (sampleStage3Input.cases.get ⟨0, by decide⟩)) = true :=
  ⟨(stage3_payload_truncation sampleStage3Input).2.1,
    (stage3_payload_truncation sampleStage3Input).2.2.2.1 0 (by decide)⟩

/-- C4 counterexample: the claim's predicate ("contains 'search' or
starts with 'gpt-5'") is true of the model name "gpt-5-mini", yet the
commerce-influencer adapter's predicate is false there, so that adapter
takes the structured branch, refuting the claimed iff for every model
name. -/
theorem mode_selection_counterexample :
    (strContains "gpt-5-mini" "search" || strStartsWith "gpt-5-mini" "gpt-5") = true ∧
    isSearchModel "gpt-5-mini" = false ∧
    generateStructuredObjectCI "gpt-5-mini" caseListValid
        ⟨"raw", TextOutcome.parseFailed "msg"⟩ ⟨[]⟩
      = generateObjectSDK caseListValid ⟨[]⟩ := by
  refine ⟨by decide, by decide, ?_⟩
  rfl

/-- C4 (amended): mode selection is a pure function of the model name,
but the two variants use different predicates — the market-research
adapter uses text mode iff the name contains "search" or starts with
"gpt-5", while the commerce-influencer adapter uses text mode iff the
name contains "search" only. -/
theorem mode_selection_by_variant {α : Type} (name : String) (check : α → Bool)
    (tresp : TextResponse α) (sval : α) :
    isNonStructuredModel name = (strContains name "search" || strStartsWith name "gpt-5") ∧
    isSearchModel name = strContains name "search" ∧
    (isNonStructuredModel name = true →
      generateStructuredObjectMR name check tresp sval = textModeRunMR check tresp) ∧
    (isNonStructuredModel name = false →
      generateStructuredObjectMR name check tresp sval = (generateObjectSDK check sval, [])) ∧
    (isSearchModel name = true →
      generateStructuredObjectCI name check tresp sval = textModeRunCI check tresp) ∧
    (isSearchModel name = false →
      generateStructuredObjectCI name check tresp sval = generateObjectSDK check sval) := by
  refine ⟨rfl, rfl, ?_, ?_, ?_, ?_⟩ <;>
    intro h <;>
    simp [generateStructuredObjectMR, generateStructuredObjectCI, h]

/-- A concrete text-mode response used by witnesses. -/
def sampleTextResp : TextResponse CaseList :=
  ⟨"raw text", TextOutcome.parsed ⟨[]⟩ "zod message"⟩

/-- C4 witness: the amended mode-selection theorem applied at concrete
model names, discharging each dispatch hypothesis. -/
theorem mode_selection_by_variant_witness :
    generateStructuredObjectMR "gpt-5-mini" caseListValid sampleTextResp ⟨[]⟩
      = textModeRunMR caseListValid sampleTextResp ∧
    generateStructuredObjectCI "gpt-5-mini" caseListValid sampleTextResp ⟨[]⟩
      = generateObjectSDK caseListValid ⟨[]⟩ ∧
    generateStructuredObjectCI "gpt-4o-search-preview" caseListValid sampleTextResp ⟨[]⟩
      = textModeRunCI caseListValid sampleTextResp :=
  ⟨(mode_selection_by_variant "gpt-5-mini" caseListValid sampleTextResp ⟨[]⟩).2.2.1
      (by decide),
    (mode_selection_by_variant "gpt-5-mini" caseListValid sampleTextResp ⟨[]⟩).2.2.2.2.2
      (by decide),
    (mode_selection_by_variant "gpt-4o-search-preview" caseListValid sampleTextResp ⟨[]⟩).2.2.2.2.1
      (by decide)⟩

/-- C3: in structured mode (taken by both adapters exactly when their
text-mode predicate is false) the returned value is checked against the
schema locally; a value failing the check yields a `ValidationError`, and
an `ok` result always satisfies the schema. -/
theorem structured_mode_validation {α : Type} (check : α → Bool) (v w : α)
    (name : String) (tresp : TextResponse α) :
    (check v = false → generateObjectSDK check v =
      Except.error (AdapterError.validationError "response does not satisfy the schema")) ∧
    (generateObjectSDK check v = Except.ok w → check w = true) ∧
    (isSearchModel name = false →
      generateStructuredObjectCI name check tresp v = generateObjectSDK check v) ∧
    (isNonStructuredModel name = false →
      generateStructuredObjectMR name check tresp v = (generateObjectSDK check v, [])) := by
  refine ⟨?_, ?_, ?_, ?_⟩
  · intro h
    simp [generateObjectSDK, h]
  · intro h
    unfold generateObjectSDK at h
    by_cases hc : check v = true
    · rw [hc] at h
      simp only [if_true] at h
      cases h
      exact hc
    · rw [Bool.not_eq_true] at hc
      rw [hc] at h
      simp at h
  · intro h
    simp [generateStructuredObjectCI, h]
  · intro h
    simp [generateStructuredObjectMR, h]

/-- A case list violating `caseListSchema` (a case with no influencer). -/
def invalidCaseList : CaseList :=
  ⟨[⟨"BrandA", "Camp", "Japan", none, "Summary", none, none, [], none⟩]⟩

/-- C3 witness: the structured-mode theorem at concrete values — an
invalid response is rejected, and a concrete `ok` result is shown to
satisfy the schema. -/
theorem structured_mode_validation_witness :
    generateObjectSDK caseListValid invalidCaseList =
      Except.error (AdapterError.validationError "response does not satisfy the schema") ∧
    caseListValid (CaseList.mk []) = true ∧
    generateStructuredObjectCI "gpt-4o-mini" caseListValid sampleTextResp (CaseList.mk [])
      = generateObjectSDK caseListValid (CaseList.mk []) :=
  ⟨(structured_mode_validation caseListValid invalidCaseList invalidCaseList
        "gpt-4o-mini" sampleTextResp).1 (by decide),
    (structured_mode_validation caseListValid (CaseList.mk []) (CaseList.mk [])
        "gpt-4o-mini" sampleTextResp).2.1 (by decide),
    (structured_mode_validation caseListValid (CaseList.mk []) (CaseList.mk [])
        "gpt-4o-mini" sampleTextResp).2.2.1 (by decide)⟩

/-- C5 counterexample: on a non-JSON response the commerce adapter's
thrown error message is the fixed prefix plus the JSON engine's own
message; the raw returned text is not included in the error. -/
theorem text_mode_raw_text_not_carried :
    textModeRunCI (fun _ : CaseList => true)
        ⟨"I cannot answer that request",
          TextOutcome.parseFailed "Unexpected token I in JSON at position 0"⟩
      = Except.error (AdapterError.validationError
          "Failed to parse search model response as valid JSON: Unexpected token I in JSON at position 0") ∧
    strContains
        "Failed to parse search model response as valid JSON: Unexpected token I in JSON at position 0"
        "I cannot answer that request" = false := by
  refine ⟨by decide, by decide⟩

/-- C5 (amended): in text mode the adapter appends a respond-with-JSON-
only instruction to both the system and user prompts, fails on a JSON
parse error with a `ValidationError` whose message is a fixed prefix plus
the underlying engine's message (the raw text itself is only logged to
the console by the market-research variant, not carried in the error),
and on parse success validates against the schema, failing with a
`ValidationError` on mismatch and returning the value otherwise. -/
theorem text_mode_behavior {α : Type} (check : α → Bool) (text m zm : String)
    (v : α) (sys prompt : String) :
    strStartsWith (textModeSystem sys) sys = true ∧
    strContains (textModeSystem sys) "respond with valid JSON only" = true ∧
    strStartsWith (textModePrompt prompt) prompt = true ∧
    strContains (textModePrompt prompt) "Respond with valid JSON only" = true ∧
    textModeRunCI check ⟨text, TextOutcome.parseFailed m⟩ =
      Except.error (AdapterError.validationError (ciParseFailurePrefix ++ m)) ∧
    (check v = true →
      textModeRunCI check ⟨text, TextOutcome.parsed v zm⟩ = Except.ok v) ∧
    (check v = false →
      textModeRunCI check ⟨text, TextOutcome.parsed v zm⟩ =
        Except.error (AdapterError.validationError (ciParseFailurePrefix ++ zm))) ∧
    textModeRunMR check ⟨text, TextOutcome.parseFailed m⟩ =
      (Except.error (AdapterError.validationError (mrParseFailurePrefix ++ m)),
        ["❌ Model response that failed to parse:", text, "\n❌ Parse error:"]) := by
  refine ⟨strStartsWith_append _ _, ?_, strStartsWith_append _ _, ?_, rfl, ?_, ?_, rfl⟩
  · exact strContains_append_right _ _ _ (by decide)
  · exact strContains_append_right _ _ _ (by decide)
  · intro h
    simp [textModeRunCI, h]
  · intro h
    simp [textModeRunCI, h]

/-- C5 witness: the text-mode theorem at concrete values, discharging the
schema-check hypotheses in both directions. -/
theorem text_mode_behavior_witness :
    textModeRunCI caseListValid ⟨"raw", TextOutcome.parsed (CaseList.mk []) "zm"⟩
      = Except.ok (CaseList.mk []) ∧
    textModeRunCI caseListValid ⟨"raw", TextOutcome.parsed invalidCaseList "zm"⟩
      = Except.error (AdapterError.validationError (ciParseFailurePrefix ++ "zm")) ∧
    strContains (textModeSystem "sys") "respond with valid JSON only" = true :=
  ⟨(text_mode_behavior caseListValid "raw" "m" "zm" (CaseList.mk []) "sys" "p").2.2.2.2.2.1
      (by decide),
    (text_mode_behavior caseListValid "raw" "m" "zm" invalidCaseList "sys" "p").2.2.2.2.2.2.1
      (by decide),
    (text_mode_behavior caseListValid "raw" "m" "zm" invalidCaseList "sys" "p").2.1⟩

/-- A concrete valid base case shared by the stage-level material. -/
def sampleBaseCase : BaseCase :=
  ⟨"BrandA", "Camp", "Japan", none, "Summary", none, none,
    [⟨"Aoi", none, none, none, none⟩], none⟩

/-- A concrete Stage 2 input holding `sampleBaseCase`. -/
def stage2InputSample : Stage1Output :=
  ⟨[sampleBaseCase], ["売上"], Language.ja, true⟩

/-- A Stage 2 model response that echoes the input case's base fields. -/
def faithfulResponse : EnrichedCaseList :=
  ⟨[⟨"BrandA", "Camp", "Japan", none, "Summary", none, none,
      [⟨"Aoi", none, none, none, none⟩], none, [⟨"GMV", "10", none, none, none⟩]⟩]⟩

/-- A Stage 2 model response whose case alters the input's brand. -/
def tamperedResponse : EnrichedCaseList :=
  ⟨[⟨"BrandB", "Camp", "Japan", none, "Summary", none, none,
      [⟨"Aoi", none, none, none, none⟩], none, [⟨"GMV", "10", none, none, none⟩]⟩]⟩

/-- C1 counterexample: Stage 2 accepts a model response whose case has a
different brand from the input case — the run succeeds and its output's
base fields differ from the input's, so base-field identity is not an
invariant of the code. -/
theorem stage2_base_fields_counterexample :
    runStage2 stage2InputSample tamperedResponse =
      Except.ok ⟨tamperedResponse.cases, ["売上"], Language.ja, true⟩ ∧
    tamperedResponse.cases.map EnrichedCase.toBase ≠ stage2InputSample.cases := by
  refine ⟨by decide, by decide⟩

/-- C1 (amended): Stage 2 forwards the model's validated response cases
verbatim as its output, carrying the other fields through unchanged; the
base fields of its output equal the input cases exactly when the model's
response echoes them — the code never compares them. -/
theorem stage2_forwards_model_cases (input : Stage1Output) (resp : EnrichedCaseList)
    (out : Stage2Output) (h : runStage2 input resp = Except.ok out) :
    out.cases = resp.cases ∧ out.metricFocus = input.metricFocus ∧
    out.language = input.language ∧ out.includeSources = input.includeSources ∧
    (resp.cases.map EnrichedCase.toBase = input.cases →
      out.cases.map EnrichedCase.toBase = input.cases) := by
  unfold runStage2 at h
  split at h
  · split at h
    · split at h
      · cases h
        exact ⟨rfl, rfl, rfl, rfl, fun hb => hb⟩
      · cases h
    · cases h
  · cases h

/-- C1 witness: the forwarding theorem at a concrete run whose response
echoes the base fields, so the round-trip conclusion fires. -/
theorem stage2_forwards_model_cases_witness :
    (Stage2Output.mk faithfulResponse.cases ["売上"] Language.ja true).cases
      = faithfulResponse.cases ∧
    (Stage2Output.mk faithfulResponse.cases ["売上"] Language.ja true).metricFocus
      = stage2InputSample.metricFocus ∧
    (Stage2Output.mk faithfulResponse.cases ["売上"] Language.ja true).language
      = stage2InputSample.language ∧
    (Stage2Output.mk faithfulResponse.cases ["売上"] Language.ja true).includeSources
      = stage2InputSample.includeSources ∧
    (faithfulResponse.cases.map EnrichedCase.toBase = stage2InputSample.cases →
      (Stage2Output.mk faithfulResponse.cases ["売上"] Language.ja true).cases.map
          EnrichedCase.toBase = stage2InputSample.cases) :=
  stage2_forwards_model_cases stage2InputSample faithfulResponse
    (Stage2Output.mk faithfulResponse.cases ["売上"] Language.ja true) (by decide)

/-- C6: boundary invariants.  A successful Stage 1 leaves 1–6 cases each
with at least one influencer; a successful Stage 2 leaves a non-empty
list of cases each with at least one metric; a model response violating
the case-list schema stops the pipeline before Stage 2's model call, and
one violating the enriched-case-list schema stops it before Stage 3. -/
theorem boundary_invariants :
    (∀ (input : PipelineInput) (r : CaseList) (out : Stage1Output),
      runStage1 input r = Except.ok out →
        1 ≤ out.cases.length ∧ out.cases.length ≤ 6 ∧
        ∀ c ∈ out.cases, 1 ≤ c.influencers.length) ∧
    (∀ (input : Stage1Output) (r : EnrichedCaseList) (out : Stage2Output),
      runStage2 input r = Except.ok out →
        1 ≤ out.cases.length ∧ ∀ c ∈ out.cases, 1 ≤ c.metrics.length) ∧
    (∀ (parse : RawInput → Option PipelineInput) (w : Bool) (raw : RawInput)
        (r1 : CaseList) (r2 : EnrichedCaseList), caseListValid r1 = false →
      (runPipelineWith parse w raw r1 r2).stage2ModelCalled = false ∧
      (runPipelineWith parse w raw r1 r2).result.isOk = false) ∧
    (∀ (parse : RawInput → Option PipelineInput) (w : Bool) (raw : RawInput)
        (r1 : CaseList) (r2 : EnrichedCaseList), enrichedCaseListValid r2 = false →
      (runPipelineWith parse w raw r1 r2).stage3Reached = false ∧
      (runPipelineWith parse w raw r1 r2).result.isOk = false) := by
  refine ⟨?_, ?_, ?_, ?_⟩
  · intro input r out h
    unfold runStage1 at h
    split at h
    · rename_i hlist
      split at h
      · rename_i hout
        cases h
        simp only [caseListValid, Bool.and_eq_true, decide_eq_true_eq,
          List.all_eq_true] at hlist
        simp only [stage1OutputValid, Bool.and_eq_true, decide_eq_true_eq,
          List.all_eq_true] at hout
        refine ⟨hout.1.1, hlist.1, ?_⟩
        intro c hc
        have hvalid := hlist.2 c hc
        simp only [validBaseCase, Bool.and_eq_true, decide_eq_true_eq] at hvalid
        exact hvalid.1
      · cases h
    · cases h
  · intro input r out h
    unfold runStage2 at h
    split at h
    · split at h
      · split at h
        · rename_i hout
          cases h
          simp only [stage2OutputValid, Bool.and_eq_true, decide_eq_true_eq,
            List.all_eq_true] at hout
          refine ⟨hout.1.1, ?_⟩
          intro c hc
          have hvalid := hout.1.2 c hc
          simp only [validEnrichedCase, Bool.and_eq_true, decide_eq_true_eq] at hvalid
          exact hvalid.2
        · cases h
      · cases h
    · cases h
  · intro parse w raw r1 r2 h
    cases hp : parse raw with
    | none => simp [runPipelineWith, hp, Except.isOk, Except.toBool]
    | some input =>
      have hs1 : runStage1 input r1 =
          Except.error (StageError.validationError
            "model response failed case-list schema validation") := by
        simp [runStage1, h]
      simp [runPipelineWith, pipelineAfterParse, hp, hs1, Except.isOk, Except.toBool]
  · intro parse w raw r1 r2 h
    cases hp : parse raw with
    | none => simp [runPipelineWith, hp, Except.isOk, Except.toBool]
    | some input =>
      cases hs1 : runStage1 input r1 with
      | error e =>
        simp [runPipelineWith, pipelineAfterParse, hp, hs1, Except.isOk, Except.toBool]
      | ok out1 =>
        have hs2 : ∃ msg, runStage2 out1 r2 =
            Except.error (StageError.validationError msg) := by
          unfold runStage2
          by_cases hv : stage1OutputValid out1 = true
          · refine ⟨"model response failed enriched-case-list schema validation", ?_⟩
            simp [hv, h]
          · refine ⟨"stage-2 input failed schema validation", ?_⟩
            simp [hv]
        rcases hs2 with ⟨msg, hs2⟩
        simp [runPipelineWith, pipelineAfterParse, hp, hs1, hs2, Except.isOk, Except.toBool]

/-- A response violating `caseListSchema` (seven cases exceed `.max(6)`). -/
def oversizedCaseList : CaseList :=
  ⟨List.replicate 7 sampleBaseCase⟩

/-- A response violating `enrichedCaseListSchema` (a case with no metric). -/
def metriclessResponse : EnrichedCaseList :=
  ⟨[⟨"BrandA", "Camp", "Japan", none, "Summary", none, none,
      [⟨"Aoi", none, none, none, none⟩], none, []⟩]⟩

/-- A concrete validated pipeline input. -/
def samplePipelineInput : PipelineInput :=
  ⟨"コマース x インフルエンサー", "Japan", 3, Language.ja, ["売上"], true⟩

/-- An all-absent raw input (every field defaulted by the schema). -/
def emptyRawInput : RawInput :=
  ⟨none, none, none, none, none, none⟩

/-- C6 witness: the boundary theorem at concrete runs — a successful
Stage 1 and Stage 2, a pipeline stopped by an oversized case list, and a
pipeline stopped by a metric-less enriched case. -/
theorem boundary_invariants_witness :
    (1 ≤ (Stage1Output.mk [sampleBaseCase] ["売上"] Language.ja true).cases.length ∧
      (Stage1Output.mk [sampleBaseCase] ["売上"] Language.ja true).cases.length ≤ 6 ∧
      ∀ c ∈ (Stage1Output.mk [sampleBaseCase] ["売上"] Language.ja true).cases,
        1 ≤ c.influencers.length) ∧
    (1 ≤ (Stage2Output.mk faithfulResponse.cases ["売上"] Language.ja true).cases.length ∧
      ∀ c ∈ (Stage2Output.mk faithfulResponse.cases ["売上"] Language.ja true).cases,
        1 ≤ c.metrics.length) ∧
    ((runPipelineWith parseInputCI false emptyRawInput oversizedCaseList
        faithfulResponse).stage2ModelCalled = false ∧
      (runPipelineWith parseInputCI false emptyRawInput oversizedCaseList
        faithfulResponse).result.isOk = false) ∧
    ((runPipelineWith parseInputCI false emptyRawInput (CaseList.mk [sampleBaseCase])
        metriclessResponse).stage3Reached = false ∧
      (runPipelineWith parseInputCI false emptyRawInput (CaseList.mk [sampleBaseCase])
        metriclessResponse).result.isOk = false) :=
  ⟨boundary_invariants.1 samplePipelineInput (CaseList.mk [sampleBaseCase])
      (Stage1Output.mk [sampleBaseCase] ["売上"] Language.ja true) (by decide),
    boundary_invariants.2.1 stage2InputSample faithfulResponse
      (Stage2Output.mk faithfulResponse.cases ["売上"] Language.ja true) (by decide),
    boundary_invariants.2.2.1 parseInputCI false emptyRawInput oversizedCaseList
      faithfulResponse (by decide),
    boundary_invariants.2.2.2 parseInputCI false emptyRawInput
      (CaseList.mk [sampleBaseCase]) metriclessResponse (by decide)⟩

/-- A raw input that explicitly passes an empty focus keyword and leaves
every other field to its default. -/
def emptyKeywordRaw : RawInput :=
  ⟨some "", none, none, none, none, none⟩

/-- C7 counterexample: the commerce-influencer variant's input schema has
no non-empty check on `focusKeyword`, so an explicitly empty keyword
passes validation and Stage 1's model call is issued. -/
theorem empty_keyword_counterexample :
    (parseInputCI emptyKeywordRaw).isSome = true ∧
    (runPipelineCI false emptyKeywordRaw (CaseList.mk [sampleBaseCase])
      faithfulResponse).stage1ModelCalled = true := by
  refine ⟨by decide, by decide⟩

/-- C7 (amended): in the market-research variant an empty `focusKeyword`
fails Stage 1 input validation and no model call is issued; in the
commerce-influencer variant `focusKeyword` merely has a default with no
minimum-length check, so an explicitly empty keyword (with the other
fields defaulted) passes validation and the model call proceeds. -/
theorem empty_keyword_validation (raw : RawInput) (w : Bool) (r1 : CaseList)
    (r2 : EnrichedCaseList) (h : raw.focusKeyword = some "")
    (hmin : raw.minExamples = none) (hmf : raw.metricFocus = none) :
    parseInputMR raw = none ∧
    (runPipelineMR w raw r1 r2).stage1ModelCalled = false ∧
    (runPipelineMR w raw r1 r2).result.isOk = false ∧
    (parseInputCI raw).isSome = true ∧
    (runPipelineCI w raw r1 r2).stage1ModelCalled = true := by
  have hmr : parseInputMR raw = none := by
    simp [parseInputMR, h]
  have hci : parseInputCI raw = some
      ⟨"", raw.geography.getD "Japan", 3, raw.language.getD Language.ja,
        ["売上", "CVR", "ROI"], raw.includeSources.getD true⟩ := by
    simp [parseInputCI, h, hmin, hmf]
  refine ⟨hmr, ?_, ?_, ?_, ?_⟩
  · simp [runPipelineMR, runPipelineWith, hmr]
  · simp [runPipelineMR, runPipelineWith, hmr, Except.isOk, Except.toBool]
  · simp [hci]
  · rw [runPipelineCI, runPipelineWith, hci]
    show (pipelineAfterParse w _ r1 r2).stage1ModelCalled = true
    unfold pipelineAfterParse
    cases hs1 : runStage1
        ⟨"", raw.geography.getD "Japan", 3, raw.language.getD Language.ja,
          ["売上", "CVR", "ROI"], raw.includeSources.getD true⟩ r1 with
    | error e => simp
    | ok out1 =>
      cases hs2 : runStage2 out1 r2 <;> simp [hs2]

/-- C7 witness: the amended theorem at the concrete empty-keyword input. -/
theorem empty_keyword_validation_witness :
    parseInputMR emptyKeywordRaw = none ∧
    (runPipelineMR false emptyKeywordRaw (CaseList.mk [sampleBaseCase])
      faithfulResponse).stage1ModelCalled = false ∧
    (runPipelineMR false emptyKeywordRaw (CaseList.mk [sampleBaseCase])
      faithfulResponse).result.isOk = false ∧
    (parseInputCI emptyKeywordRaw).isSome = true ∧
    (runPipelineCI false emptyKeywordRaw (CaseList.mk [sampleBaseCase])
      faithfulResponse).stage1ModelCalled = true :=
  empty_keyword_validation emptyKeywordRaw false (CaseList.mk [sampleBaseCase])
    faithfulResponse rfl rfl rfl

/-! ### C8: summary formatting -/

/-- An optional string field as the JavaScript conditional sees it:
`none` when absent or empty, its value otherwise. -/
def fieldShown (o : Option String) : Option String :=
  match o with
  | none => none
  | some s => if s = "" then none else some s

/-- The metric line as the claim words it: `- <name>: <value>` followed
by the currency, the parenthesized timeframe, and `｜<note>`, each
omitted exactly when the field is absent. -/
def claimMetricLine (m : Metric) : String :=
  "- " ++ m.metric ++ ": " ++ m.value
    ++ (match m.currency with | some c => " " ++ c | none => "")
    ++ (match m.timeframe with | some t => " (" ++ t ++ ")" | none => "")
    ++ (match m.note with | some n => "｜" ++ n | none => "")

/-- The metric line as the amended claim words it: each optional part
omitted exactly when the field is absent or the empty string. -/
def claimMetricLineAmended (m : Metric) : String :=
  "- " ++ m.metric ++ ": " ++ m.value
    ++ (match fieldShown m.currency with | some c => " " ++ c | none => "")
    ++ (match fieldShown m.timeframe with | some t => " (" ++ t ++ ")" | none => "")
    ++ (match fieldShown m.note with | some n => "｜" ++ n | none => "")

/-- The sources line as the claim words it: a localized label joining all
source URLs with ", ", appended exactly when `includeSources` is true and
the case has at least one source. -/
def claimSourcesLine (lang : Language) (inc : Bool) (c : EnrichedCase) : String :=
  match c.sources with
  | some (s :: rest) =>
    if inc then
      "\n" ++ (if lang = Language.ja then "参考" else "Sources") ++ ": "
        ++ joinSep ", " (s :: rest)
    else ""
  | _ => ""

/-- Forget a case's sources. -/
def eraseSources (c : EnrichedCase) : EnrichedCase :=
  { c with sources := none }

theorem summaryParts_eraseSources (lang : Language) :
    ∀ (l : List EnrichedCase) (j : Nat),
      summaryParts lang false j (l.map eraseSources) = summaryParts lang false j l := by
  intro l
  induction l with
  | nil => intro j; rfl
  | cons c rest ih =>
    intro j
    simp only [List.map, summaryParts, ih]
    refine congrArg (fun s => s :: summaryParts lang false (j + 1) rest) ?_
    simp [renderCaseText, sourcesLine, eraseSources]

/-- C8 counterexample: a metric whose `currency` is present but empty is
rendered without the currency part, though the claim requires omission
exactly when the field is absent. -/
theorem metric_line_counterexample :
    renderMetricLine ⟨"GMV", "120", some "", none, none⟩ ≠
      claimMetricLine ⟨"GMV", "120", some "", none, none⟩ := by
  decide

/-- C8 (amended): every metric line follows the claimed format with each
optional part omitted exactly when the field is absent or empty; the
localized sources line is appended exactly when `includeSources` is true
and the case has at least one source; and with `includeSources = false`
the summary is independent of every case's sources. -/
theorem summary_formatting (m : Metric) (lang : Language) (inc : Bool)
    (c : EnrichedCase) (cases : List EnrichedCase) :
    renderMetricLine m = claimMetricLineAmended m ∧
    sourcesLine lang inc c = claimSourcesLine lang inc c ∧
    summaryOf lang false (cases.map eraseSources) = summaryOf lang false cases := by
  refine ⟨?_, ?_, ?_⟩
  · rcases m with ⟨mm, mv, mc, mt, mn⟩
    cases mc <;> cases mt <;> cases mn <;>
      simp only [renderMetricLine, claimMetricLineAmended, fieldShown] <;>
      split_ifs <;> rfl
  · rcases hc : c.sources with _ | ⟨_ | ⟨s, rest⟩⟩ <;>
      cases inc <;>
      simp [sourcesLine, claimSourcesLine, EnrichedCase.hasSources, hc]
  · unfold summaryOf
    rw [summaryParts_eraseSources]

end Aiwf
